import Mathlib

/-!
Shallow embedding of the myConnect repository (relay-based packet diversion
system): the client's flow classifier and WinDivert capture loop
(`src/client/network_manager.py`, `NetworkManager.run_windivert`), the
client's relay receive path (`receive_handler` / `handle_incoming_packet`),
the client's reconnect loop (`connect_to_server`), and the relay server's
connection handler (`src/server/main.py`, `handler`).
-/

namespace MyConnect

/-! ## Packets and the flow classifier (`NetworkManager.run_windivert`) -/

/-- Transport protocol of a captured packet, as exposed by pydivert
(`packet.udp` / `packet.tcp` truthiness). -/
inductive TransProto where
  | tcp
  | udp
  | other
deriving DecidableEq, Repr

/-- A captured packet as the capture loop reads it from the WinDivert
handle: parsed header fields plus the transport payload bytes and the raw
packet bytes (`packet.raw`). -/
structure Packet where
  proto : TransProto
  src_addr : String
  src_port : Nat
  dst_addr : String
  dst_port : Nat
  payload : List Nat
  raw : List Nat
deriving DecidableEq, Repr

/-- `packet.udp` truthiness in pydivert: the packet carries a UDP header. -/
def Packet.isUdp (p : Packet) : Bool := p.proto = TransProto.udp

/-- The flow identification tuple the capture loop builds:
`(packet.src_addr, packet.src_port, packet.dst_addr, packet.dst_port)`. -/
def Packet.flow_id (p : Packet) : String × Nat × String × Nat :=
  (p.src_addr, p.src_port, p.dst_addr, p.dst_port)

/-- Python's `needle in hay` on bytes: substring containment. -/
def bytesContain (hay needle : List Nat) : Bool :=
  decide (needle <:+: hay)

/-- The mutable diversion state of the capture loop: `diverted_flows`
(set of flow 4-tuples) and `diverted_ips` (set of destination IPs). -/
structure DivertState where
  diverted_flows : List (String × Nat × String × Nat)
  diverted_ips : List String
deriving DecidableEq, Repr

/-- Per-packet disposition of the capture loop body: `continue` without
re-injection (drop), queue for the relay (divert), or re-inject locally
(pass). -/
inductive Decision where
  | drop
  | divert
  | pass
deriving DecidableEq, Repr

/-- One iteration of the capture loop body of
`NetworkManager.run_windivert`, lines 178-230: first the UDP/443 drop,
then the sticky flow/IP diversion check, then keyword inspection of the
payload (only when `domain_keywords` is non-empty; an empty keyword list
diverts every captured packet). Returns the disposition together with the
updated diversion state. -/
def classifyPacket (domain_keywords : List (List Nat)) (st : DivertState)
    (p : Packet) : Decision × DivertState :=
  if p.isUdp && p.dst_port == 443 then
    (Decision.drop, st)
  else
    let flow_id := p.flow_id
    let dst_ip := p.dst_addr
    if domain_keywords.isEmpty then
      (Decision.divert, st)
    else
      if flow_id ∈ st.diverted_flows || dst_ip ∈ st.diverted_ips then
        (Decision.divert, st)
      else
        if !p.payload.isEmpty
            && domain_keywords.any (fun kw => bytesContain p.payload kw) then
          (Decision.divert,
           { diverted_flows := flow_id :: st.diverted_flows,
             diverted_ips := dst_ip :: st.diverted_ips })
        else
          (Decision.pass, st)

/-- Running the capture loop over a sequence of captured packets,
threading the diversion state and collecting each packet's disposition. -/
def classifyRun (domain_keywords : List (List Nat)) :
    DivertState → List Packet → List Decision × DivertState
  | st, [] => ([], st)
  | st, p :: ps =>
    let (d, st') := classifyPacket domain_keywords st p
    let (ds, st'') := classifyRun domain_keywords st' ps
    (d :: ds, st'')

/-! ## Rule selection in `run_windivert` (lines 149-162) -/

/-- One entry of the client configuration's `filters` list. The singular
`domain_keyword` field is optional; Python appends it to the keyword list
only when it is truthy (a non-empty string). -/
structure DiversionRule where
  windivert_filter : String
  target_client : String
  domain_keywords : List String
  domain_keyword : Option String
deriving DecidableEq, Repr

/-- The effective keyword list `run_windivert` builds from a rule:
`filters[0].get('domain_keywords', [])`, with
`filters[0].get('domain_keyword')` appended when truthy. -/
def DiversionRule.effectiveKeywords (r : DiversionRule) : List String :=
  r.domain_keywords ++
    (match r.domain_keyword with
     | some k => if k = "" then [] else [k]
     | none => [])

/-- The configuration `run_windivert` actually uses: filter string, target
client and keywords, all taken from `filters[0]`; `none` when the filters
list is empty (the thread logs and returns). -/
def activeCapture (filters : List DiversionRule) :
    Option (String × String × List String) :=
  match filters with
  | [] => none
  | r :: _ =>
    some (r.windivert_filter, r.target_client, r.effectiveKeywords)

/-! ## Hex decoding (`bytes.fromhex`) -/

/-- Value of a hex digit, `none` for a non-hex character (code points:
digits 48-57, lowercase a-f 97-102, uppercase A-F 65-70). -/
def hexDigit (c : Char) : Option Nat :=
  let n := c.toNat
  if 48 ≤ n ∧ n ≤ 57 then some (n - 48)
  else if 97 ≤ n ∧ n ≤ 102 then some (n - 87)
  else if 65 ≤ n ∧ n ≤ 70 then some (n - 55)
  else none

/-- Python's `bytes.fromhex` over a character list: pairs of hex digits,
with ASCII spaces permitted between pairs; a dangling digit (odd length)
or a non-hex character raises `ValueError`, modelled as `none`. -/
def fromhexAux : List Char → Option (List Nat)
  | [] => some []
  | ' ' :: rest => fromhexAux rest
  | c1 :: c2 :: rest =>
    match hexDigit c1, hexDigit c2 with
    | some h, some l =>
      match fromhexAux rest with
      | some bs => some ((16 * h + l) :: bs)
      | none => none
    | _, _ => none
  | [_] => none

/-- `bytes.fromhex(s)`: `some bytes` on success, `none` when Python would
raise `ValueError`. -/
def fromhex (s : String) : Option (List Nat) :=
  fromhexAux s.data

/-- `packet.raw.hex()`: hex-encode a byte list (each byte two lowercase
hex digits). -/
def toHexByte (b : Nat) : List Char :=
  [(Nat.digitChar (b / 16 % 16)), (Nat.digitChar (b % 16))]

/-- Hex encoding of a raw packet, as the capture loop serializes it. -/
def bytesHex (bs : List Nat) : String :=
  ⟨bs.flatMap toHexByte⟩

/-! ## Relay envelopes and the client receive path -/

/-- A relay envelope as the client sees it after `json.loads`: the fields
`handle_incoming_packet` reads via `data.get(...)` / `data['payload']`. A
missing field is `none`. -/
structure Envelope where
  target : Option String
  type : Option String
  mode : Option String
  payload : Option String
  sender : Option String
deriving DecidableEq, Repr

/-- The client-side NAT table `NetworkManager.nat_table`, documented in
the source as `(src_ip, src_port) -> (original_src_ip, original_src_port)`.
It is initialised empty and (in the shipped code) never written. -/
abbrev NatTable := List ((String × Nat) × (String × Nat))

/-- Observable effect of a packet injection performed by
`handle_incoming_packet`. -/
inductive InjectAction where
  | injectInbound (bytes : List Nat)
deriving DecidableEq, Repr

/-- Outcome of one call to `NetworkManager.handle_incoming_packet`:
either an exception escapes the call (the `bytes.fromhex` on line 82 and
the `data['payload']` subscript run before the `try` block on line 93, so
their errors propagate to the caller), or the call returns, having
performed the listed injections and left the NAT table as recorded. -/
inductive HandlerOutcome where
  | raised
  | done (acts : List InjectAction) (nat_table : NatTable)

/-- `NetworkManager.handle_incoming_packet` (lines 76-131).
`mode = "response"` injects the decoded bytes inbound; `mode = "request"`
executes `pass` — no NAT entry is recorded, nothing is rewritten and
nothing is injected; any other mode falls through both branches. -/
def handle_incoming_packet (nat_table : NatTable) (data : Envelope) :
    HandlerOutcome :=
  match data.payload with
  | none => HandlerOutcome.raised
  | some s =>
    match fromhex s with
    | none => HandlerOutcome.raised
    | some payload =>
      match data.mode with
      | some "response" =>
        HandlerOutcome.done [InjectAction.injectInbound payload] nat_table
      | some "request" =>
        HandlerOutcome.done [] nat_table
      | _ => HandlerOutcome.done [] nat_table

/-- An inbound websocket frame as `receive_handler` sees it: either
`json.loads` raises on it, or it parses to an envelope. -/
inductive RawMessage where
  | invalid
  | valid (env : Envelope)
deriving DecidableEq, Repr

/-- Result of `NetworkManager.receive_handler` on a finite inbound
message sequence: which envelopes were fully dispatched, the injections
performed, whether the loop was cut short by a caught exception, the
messages never read after that, and whether the handler closed the
websocket (it never does: the `except` clause only logs). -/
structure RecvResult where
  handled : List Envelope
  acts : List InjectAction
  aborted : Bool
  skipped : List RawMessage
  closedConn : Bool

/-- `NetworkManager.receive_handler` (lines 54-64). The `try` wraps the
whole `async for` loop: `json.loads` errors and exceptions escaping
`handle_incoming_packet` are caught outside the loop, which therefore
stops; remaining frames are never processed. Non-`packet` envelopes are
ignored and the loop continues. -/
def receive_handler (nat_table : NatTable) :
    List RawMessage → RecvResult
  | [] =>
    { handled := [], acts := [], aborted := false, skipped := [],
      closedConn := false }
  | RawMessage.invalid :: rest =>
    { handled := [], acts := [], aborted := true, skipped := rest,
      closedConn := false }
  | RawMessage.valid env :: rest =>
    if env.type = some "packet" then
      match handle_incoming_packet nat_table env with
      | HandlerOutcome.raised =>
        { handled := [], acts := [], aborted := true, skipped := rest,
          closedConn := false }
      | HandlerOutcome.done acts nat' =>
        let r := receive_handler nat' rest
        { r with handled := env :: r.handled, acts := acts ++ r.acts }
    else
      let r := receive_handler nat_table rest
      { r with handled := env :: r.handled }

/-! ## Python dictionaries (association lists, first occurrence wins) -/

/-- `d.get(k)` / `d[k]`: first binding of `k`. -/
def dictGet {α : Type} (d : List (String × α)) (k : String) : Option α :=
  match d with
  | [] => none
  | (k', v) :: rest => if k' = k then some v else dictGet rest k

/-- `k in d`. -/
def dictHas {α : Type} (d : List (String × α)) (k : String) : Bool :=
  (dictGet d k).isSome

/-- `d[k] = v`: replace the existing binding of `k`, or append one. -/
def dictSet {α : Type} (d : List (String × α)) (k : String) (v : α) :
    List (String × α) :=
  match d with
  | [] => [(k, v)]
  | (k', v') :: rest =>
    if k' = k then (k', v) :: rest else (k', v') :: dictSet rest k v

/-- `del d[k]`: remove the binding of `k`. -/
def dictDel {α : Type} (d : List (String × α)) (k : String) :
    List (String × α) :=
  match d with
  | [] => []
  | (k', v') :: rest =>
    if k' = k then rest else (k', v') :: dictDel rest k

/-! ## The relay server's connection handler (`src/server/main.py`) -/

/-- The server's client registry `connected_clients`:
`{client_name: websocket}`, with websockets identified by a connection
id. -/
abbrev Registry := List (String × Nat)

/-- Outcome of the authentication handshake at the top of `handler`
(lines 93-113): close the websocket with a status code, or accept the
claimed name and register the session. -/
inductive AuthResult where
  | closed (code : Nat) (reason : String)
  | authenticated (name : String)
deriving DecidableEq, Repr

/-- The authentication steps of `handler`:
`expected_name = config['clients'].get(token)`; falsy `expected_name`
(missing token, or a token bound to the empty string) closes with 4001;
`expected_name != name` closes with 4002; otherwise the session is
registered under `name` (silently overwriting any existing binding) and
`{"status": "authenticated"}` is sent. -/
def serverAuth (clients : List (String × String)) (registry : Registry)
    (conn : Nat) (token name : Option String) : AuthResult × Registry :=
  let expected_name := match token with
    | none => none
    | some t => dictGet clients t
  match expected_name with
  | none => (AuthResult.closed 4001 "Invalid token", registry)
  | some e =>
    if e = "" then (AuthResult.closed 4001 "Invalid token", registry)
    else if some e ≠ name then
      (AuthResult.closed 4002 "Name mismatch", registry)
    else
      (AuthResult.authenticated e, dictSet registry e conn)

/-- A routed message after `json.loads`, as a field dictionary (in the
claims of interest all field values are strings). -/
abbrev MsgData := List (String × String)

/-- Python's rendering of an optional string inside an f-string:
`None` prints as `"None"`. -/
def pyShow : Option String → String
  | none => "None"
  | some s => s

/-- One send action performed while routing: the destination connection
id and the JSON-decoded message sent to it. -/
structure Send where
  conn : Nat
  msg : MsgData
deriving DecidableEq, Repr

/-- The per-message routing body of `handler` (lines 115-137):
`target = data.get('target')`; when `target` is truthy and has a live
session, set `data['sender'] = client_id` and forward the whole
dictionary to that session; otherwise send
`{"type": "error", "message": f"Target (target) not found"}` back to the
sender. The registry is never modified and the connection never closed
here. -/
def routeMessage (registry : Registry) (client_id : String)
    (sender_conn : Nat) (data : MsgData) : List Send :=
  let target := dictGet data "target"
  let truthy := match target with
    | none => false
    | some t => t ≠ ""
  if truthy && dictHas registry (pyShow target) then
    match dictGet registry (pyShow target) with
    | some target_conn =>
      [{ conn := target_conn, msg := dictSet data "sender" client_id }]
    | none => []
  else
    [{ conn := sender_conn,
       msg := [("type", "error"),
               ("message", "Target " ++ pyShow target ++ " not found")] }]

/-- The message loop of `handler`: each message's body is wrapped in its
own `try`, so a failing message is logged and the loop continues with the
next one. Returns all sends in order. -/
def serverLoop (registry : Registry) (client_id : String)
    (sender_conn : Nat) : List MsgData → List Send
  | [] => []
  | data :: rest =>
    routeMessage registry client_id sender_conn data ++
      serverLoop registry client_id sender_conn rest

/-- The `finally` cleanup of `handler` (lines 145-148):
`if client_id and client_id in connected_clients: del
connected_clients[client_id]` — keyed by name only, regardless of which
websocket the registry entry currently holds. -/
def serverCleanup (registry : Registry) (client_id : Option String) :
    Registry :=
  match client_id with
  | none => registry
  | some cid =>
    if cid ≠ "" && dictHas registry cid then dictDel registry cid
    else registry

/-! ## The relay client's reconnect loop
(`NetworkManager.connect_to_server`, lines 22-52) -/

/-- Observable events of one run of the reconnect loop, in program
order. -/
inductive CEvent where
  | statusCb (connected : Bool)
  | attemptConnect
  | sleepSecs (n : Nat)
deriving DecidableEq, Repr

/-- How one iteration of the `while self.running` loop ends. Every
iteration ends in the `except` clause: either the connect/auth phase
raises, or the connection becomes active (auth reply received, status
callback fired with `True`) and a later I/O error raises. -/
inductive AttemptOutcome where
  | connectFail
  | activeThenError
deriving DecidableEq, Repr

/-- The event trace of one loop iteration: status callback with `False`
(connecting), the connection attempt, on success a status callback with
`True`, then — when the iteration's exception is caught — a status
callback with `False` followed by `await asyncio.sleep(5)`. `cb` records
whether a status callback is registered (`self.status_callback` is
truthy). -/
def attemptTrace (cb : Bool) (oc : AttemptOutcome) : List CEvent :=
  (if cb then [CEvent.statusCb false] else []) ++
    [CEvent.attemptConnect] ++
    (match oc with
     | AttemptOutcome.connectFail => []
     | AttemptOutcome.activeThenError =>
       if cb then [CEvent.statusCb true] else []) ++
    (if cb then [CEvent.statusCb false] else []) ++
    [CEvent.sleepSecs 5]

/-- `NetworkManager.connect_to_server`: the loop keeps iterating while
`self.running` is true; the outcome list gives the fate of each iteration
performed before `running` was cleared, so the trace is one
`attemptTrace` per iteration. -/
def connect_to_server (cb : Bool) : List AttemptOutcome → List CEvent
  | [] => []
  | oc :: rest => attemptTrace cb oc ++ connect_to_server cb rest

/-- Number of connection attempts in a trace. -/
def countAttempts (t : List CEvent) : Nat :=
  t.countP (fun e => e = CEvent.attemptConnect)

/-- Every sleep in the trace is the fixed 5-second backoff. -/
def sleepsOnlyFive (t : List CEvent) : Bool :=
  t.all (fun e => match e with
    | CEvent.sleepSecs n => n == 5
    | _ => true)

/-! ## The capture pipeline as a whole (for rule selection) -/

/-- `kw.encode()` for a configured keyword, as code points (coincides
with the UTF-8 bytes for the ASCII keywords the configuration uses). -/
def encodeKw (s : String) : List Nat :=
  s.data.map Char.toNat

/-- `NetworkManager.run_windivert` as a function of the configured
filters: `none` when no filters are configured (the thread returns
without capturing); otherwise the filter string and target client it
opens the capture with, and the dispositions it assigns to a captured
packet sequence. -/
def run_windivert (filters : List DiversionRule) (st : DivertState)
    (ps : List Packet) :
    Option (String × String × (List Decision × DivertState)) :=
  match activeCapture filters with
  | none => none
  | some (fs, tc, kws) =>
    some (fs, tc, classifyRun (kws.map encodeKw) st ps)

/-! ## Helper lemmas on Python-dict association lists -/

theorem dictGet_dictSet_self {α : Type} (d : List (String × α))
    (k : String) (v : α) : dictGet (dictSet d k v) k = some v := by
  induction d with
  | nil => simp [dictSet, dictGet]
  | cons hd tl ih =>
    obtain ⟨k', v'⟩ := hd
    by_cases h : k' = k
    · subst h
      simp [dictSet, dictGet]
    · simp [dictSet, dictGet, h, ih]

theorem dictGet_dictSet_ne {α : Type} (d : List (String × α))
    (k k' : String) (v : α) (h : k' ≠ k) :
    dictGet (dictSet d k v) k' = dictGet d k' := by
  have h' : k ≠ k' := Ne.symm h
  induction d with
  | nil => simp [dictSet, dictGet, h']
  | cons hd tl ih =>
    obtain ⟨k0, v0⟩ := hd
    by_cases h0 : k0 = k
    · subst h0
      simp [dictSet, dictGet, h']
    · by_cases h1 : k0 = k'
      · subst h1
        simp [dictSet, dictGet, h0]
      · simp [dictSet, dictGet, h0, h1, ih]

/-! ## Claim theorems -/

/-- C4: every captured UDP packet with destination port 443 is dropped
by the capture loop — not re-injected and not diverted — whatever the
keyword configuration and the diverted-flow/IP state. -/
theorem c4_udp443_always_dropped (domain_keywords : List (List Nat))
    (st : DivertState) (p : Packet)
    (hudp : p.proto = TransProto.udp) (hport : p.dst_port = 443) :
    classifyPacket domain_keywords st p = (Decision.drop, st) := by
  simp [classifyPacket, Packet.isUdp, hudp, hport]

/-- Witness for C4: a concrete UDP/443 packet is dropped even with
keywords configured and with its flow and IP already marked diverted. -/
theorem c4_udp443_always_dropped_witness :
    classifyPacket [[97]]
      { diverted_flows := [("10.0.0.1", 1111, "9.9.9.9", 443)],
        diverted_ips := ["9.9.9.9"] }
      { proto := TransProto.udp, src_addr := "10.0.0.1", src_port := 1111,
        dst_addr := "9.9.9.9", dst_port := 443,
        payload := [97], raw := [69, 0] }
      = (Decision.drop,
         { diverted_flows := [("10.0.0.1", 1111, "9.9.9.9", 443)],
           diverted_ips := ["9.9.9.9"] }) :=
  c4_udp443_always_dropped [[97]] _ _ rfl rfl

/-- C10: when more than one diversion rule is configured, the capture
loop uses only the first rule's filter expression, target client and
keywords; the rules after the first have no effect on the capture
configuration or on any packet's disposition. -/
theorem c10_only_first_rule_used (r : DiversionRule)
    (rs : List DiversionRule) (st : DivertState) (ps : List Packet) :
    run_windivert (r :: rs) st ps = run_windivert [r] st ps
    ∧ activeCapture (r :: rs)
        = some (r.windivert_filter, r.target_client, r.effectiveKeywords) :=
  ⟨rfl, rfl⟩

/-- C1: the claim says a `mode="request"` envelope has its packet parsed,
a `NatEntry` recorded, the source address rewritten, checksums recomputed
and the packet injected outbound. The code's `request` branch is `pass`:
`handle_incoming_packet` returns with no injection performed and the NAT
table untouched. -/
theorem c1_request_branch_does_nothing (nat_table : NatTable)
    (env : Envelope) (s : String) (bs : List Nat)
    (hmode : env.mode = some "request")
    (hpay : env.payload = some s) (hhex : fromhex s = some bs) :
    handle_incoming_packet nat_table env
      = HandlerOutcome.done [] nat_table := by
  simp [handle_incoming_packet, hpay, hhex, hmode]

/-- Witness for C1: the request envelope with payload `"deadbeef"`
produces no injection and leaves the NAT table empty. -/
theorem c1_request_branch_does_nothing_witness :
    handle_incoming_packet []
      { target := some "bob", type := some "packet",
        mode := some "request", payload := some "deadbeef",
        sender := some "alice" }
      = HandlerOutcome.done [] [] :=
  c1_request_branch_does_nothing [] _ "deadbeef" [222, 173, 190, 239]
    rfl rfl rfl

/-- Counterexample to C2 as stated: after a message whose payload is not
valid hex, the next well-formed message on the same connection is NOT
processed — the `ValueError` raised by `bytes.fromhex` on line 82 escapes
`handle_incoming_packet`, is caught by the `try` that wraps the whole
`async for` loop of `receive_handler`, and the loop stops. -/
theorem c2_counterexample :
    (receive_handler []
        [RawMessage.valid
           { target := none, type := some "packet", mode := some "response",
             payload := some "zz", sender := none },
         RawMessage.valid
           { target := none, type := some "packet", mode := some "response",
             payload := some "de", sender := none }]).handled = []
    ∧ (receive_handler []
        [RawMessage.valid
           { target := none, type := some "packet", mode := some "response",
             payload := some "zz", sender := none },
         RawMessage.valid
           { target := none, type := some "packet", mode := some "response",
             payload := some "de", sender := none }]).aborted = true := by
  constructor <;> rfl

/-- C2 amended: a message with a malformed hex payload does not cause an
unhandled error and the client does not close the connection, but the
receive loop terminates on it: the bad message is discarded with no
injection performed, and every later message on that connection is left
unprocessed. -/
theorem c2_bad_hex_stops_receive_loop (nat_table : NatTable)
    (env : Envelope) (rest : List RawMessage) (s : String)
    (hty : env.type = some "packet")
    (hpay : env.payload = some s) (hbad : fromhex s = none) :
    receive_handler nat_table (RawMessage.valid env :: rest)
      = { handled := [], acts := [], aborted := true, skipped := rest,
          closedConn := false } := by
  simp [receive_handler, hty, handle_incoming_packet, hpay, hbad]

/-- Witness for the amended C2: payload `"zzz"` (odd length and non-hex)
stops the loop; the following valid message is skipped. -/
theorem c2_bad_hex_stops_receive_loop_witness :
    receive_handler []
      [RawMessage.valid
         { target := none, type := some "packet", mode := some "response",
           payload := some "zzz", sender := none },
       RawMessage.valid
         { target := none, type := some "packet", mode := some "response",
           payload := some "de", sender := none }]
      = { handled := [], acts := [], aborted := true,
          skipped :=
            [RawMessage.valid
               { target := none, type := some "packet",
                 mode := some "response", payload := some "de",
                 sender := none }],
          closedConn := false } :=
  c2_bad_hex_stops_receive_loop [] _ _ "zzz" rfl rfl rfl

/-- Counterexample to C3 as stated: a TCP packet carrying the configured
keyword marks its flow and destination IP, but a subsequent UDP packet
with destination port 443 to that same (marked) destination IP is
classified `drop`, not `divert` — the UDP/443 drop runs before the
diverted-flow/IP check. -/
theorem c3_counterexample :
    (classifyPacket [[120]] { diverted_flows := [], diverted_ips := [] }
        { proto := TransProto.tcp, src_addr := "1.1.1.1", src_port := 50,
          dst_addr := "2.2.2.2", dst_port := 443,
          payload := [120, 121], raw := [] }).1 = Decision.divert
    ∧ "2.2.2.2" ∈
        ((classifyPacket [[120]] { diverted_flows := [], diverted_ips := [] }
            { proto := TransProto.tcp, src_addr := "1.1.1.1", src_port := 50,
              dst_addr := "2.2.2.2", dst_port := 443,
              payload := [120, 121], raw := [] }).2).diverted_ips
    ∧ (classifyPacket [[120]]
          (classifyPacket [[120]] { diverted_flows := [], diverted_ips := [] }
              { proto := TransProto.tcp, src_addr := "1.1.1.1",
                src_port := 50, dst_addr := "2.2.2.2", dst_port := 443,
                payload := [120, 121], raw := [] }).2
          { proto := TransProto.udp, src_addr := "1.1.1.1", src_port := 51,
            dst_addr := "2.2.2.2", dst_port := 443,
            payload := [], raw := [] }).1 = Decision.drop
    ∧ Decision.drop ≠ Decision.divert := by
  refine ⟨rfl, by decide, rfl, by decide⟩

/-- C3 amended: with keywords configured, (a) a packet whose flow or
destination IP is already marked diverted is classified `divert` with the
state unchanged, for every possible payload — the payload is not
inspected — provided the packet is not a UDP packet to destination port
443 (those are dropped first); and (b) an unmarked packet that is not
UDP/443 and whose non-empty payload contains a configured keyword as a
byte substring is classified `divert` and both its flow 4-tuple and its
destination IP are added to the diverted sets. -/
theorem c3_keyword_divert_sticky (domain_keywords : List (List Nat))
    (st : DivertState) (p : Packet)
    (hkws : domain_keywords ≠ [])
    (hnot443 : (p.isUdp && p.dst_port == 443) = false) :
    ((p.flow_id ∈ st.diverted_flows ∨ p.dst_addr ∈ st.diverted_ips) →
       ∀ pl raw', classifyPacket domain_keywords st
           { p with payload := pl, raw := raw' } = (Decision.divert, st))
    ∧ (p.flow_id ∉ st.diverted_flows → p.dst_addr ∉ st.diverted_ips →
       p.payload ≠ [] →
       (∃ kw ∈ domain_keywords, bytesContain p.payload kw = true) →
       classifyPacket domain_keywords st p
         = (Decision.divert,
            { diverted_flows := p.flow_id :: st.diverted_flows,
              diverted_ips := p.dst_addr :: st.diverted_ips })) := by
  have hkE : domain_keywords.isEmpty = false := by
    cases domain_keywords with
    | nil => exact absurd rfl hkws
    | cons a l => rfl
  have hupdate : ∀ pl raw',
      ((({ p with payload := pl, raw := raw' } : Packet)).isUdp
        && ({ p with payload := pl, raw := raw' } : Packet).dst_port == 443)
        = false := by
    intro pl raw'
    simpa [Packet.isUdp] using hnot443
  constructor
  · intro hmem pl raw'
    have hflow_eq : ({ p with payload := pl, raw := raw' } : Packet).flow_id
        = p.flow_id := rfl
    rcases hmem with h | h <;>
      simp [classifyPacket, hupdate pl raw', hkE, hflow_eq, h]
  · intro hflow hip hpay hkw
    have hany : domain_keywords.any
        (fun kw => bytesContain p.payload kw) = true := by
      rcases hkw with ⟨kw, hkwmem, hcontain⟩
      exact List.any_eq_true.mpr ⟨kw, hkwmem, hcontain⟩
    have hpayb : p.payload.isEmpty = false := by
      cases hp : p.payload with
      | nil => exact absurd hp hpay
      | cons a l => simp [hp]
    simp [classifyPacket, hnot443, hkE, hflow, hip, hany, hpayb]

/-- Witness for the amended C3: a concrete keyword match marks flow and
IP, and a later TCP packet to the marked IP with a different payload is
diverted with the state unchanged. -/
theorem c3_keyword_divert_sticky_witness :
    (classifyPacket [[120]]
        { diverted_flows := [("1.1.1.1", 50, "2.2.2.2", 443)],
          diverted_ips := ["2.2.2.2"] }
        { proto := TransProto.tcp, src_addr := "1.1.1.1", src_port := 60,
          dst_addr := "2.2.2.2", dst_port := 80,
          payload := [9, 9, 9], raw := [] })
      = (Decision.divert,
         { diverted_flows := [("1.1.1.1", 50, "2.2.2.2", 443)],
           diverted_ips := ["2.2.2.2"] })
    ∧ (classifyPacket [[120]] { diverted_flows := [], diverted_ips := [] }
        { proto := TransProto.tcp, src_addr := "1.1.1.1", src_port := 50,
          dst_addr := "2.2.2.2", dst_port := 443,
          payload := [120, 121], raw := [] })
      = (Decision.divert,
         { diverted_flows := [("1.1.1.1", 50, "2.2.2.2", 443)],
           diverted_ips := ["2.2.2.2"] }) := by
  constructor
  · exact (c3_keyword_divert_sticky [[120]]
      { diverted_flows := [("1.1.1.1", 50, "2.2.2.2", 443)],
        diverted_ips := ["2.2.2.2"] }
      { proto := TransProto.tcp, src_addr := "1.1.1.1", src_port := 60,
        dst_addr := "2.2.2.2", dst_port := 80,
        payload := [0], raw := [] }
      (by decide) (by decide)).1 (by decide) [9, 9, 9] []
  · exact (c3_keyword_divert_sticky [[120]]
      { diverted_flows := [], diverted_ips := [] }
      { proto := TransProto.tcp, src_addr := "1.1.1.1", src_port := 50,
        dst_addr := "2.2.2.2", dst_port := 443,
        payload := [120, 121], raw := [] }
      (by decide) (by decide)).2 (by decide) (by decide) (by decide)
      ⟨[120], by decide, by decide⟩

/-- Counterexample to C5 as stated: a token bound in the token→name map
to the empty string, claimed with a different name, is closed with the
invalid-token code 4001 — not the name-mismatch code 4002 — because the
server tests `if not expected_name` before comparing names. -/
theorem c5_counterexample :
    dictGet [("T", "")] "T" = some "" ∧ ("" : String) ≠ "B"
    ∧ serverAuth [("T", "")] [("x", 9)] 1 (some "T") (some "B")
        = (AuthResult.closed 4001 "Invalid token", [("x", 9)])
    ∧ (4001 : Nat) ≠ 4002 := by
  refine ⟨rfl, by decide, rfl, by decide⟩

/-- C5 amended: a first message whose token is bound to a non-empty name
different from the claimed name closes the connection with the
name-mismatch code 4002 (distinct from the invalid-token code 4001), and
the client registry is unchanged — no session is added. -/
theorem c5_name_mismatch_rejected (clients : List (String × String))
    (registry : Registry) (conn : Nat) (token bound : String)
    (name : Option String)
    (hbound : dictGet clients token = some bound) (hne : bound ≠ "")
    (hmismatch : name ≠ some bound) :
    serverAuth clients registry conn (some token) name
      = (AuthResult.closed 4002 "Name mismatch", registry) := by
  simp [serverAuth, hbound, hne, hmismatch.symm]

/-- Witness for the amended C5: token `"T1"` is bound to `"A"`; a
connection claiming `"B"` is closed with 4002 and the registry keeps its
previous single entry. -/
theorem c5_name_mismatch_rejected_witness :
    serverAuth [("T1", "A")] [("bob", 3)] 7 (some "T1") (some "B")
      = (AuthResult.closed 4002 "Name mismatch", [("bob", 3)]) :=
  c5_name_mismatch_rejected [("T1", "A")] [("bob", 3)] 7 "T1" "A"
    (some "B") rfl (by decide) (by decide)

/-- C6: a routed message whose target is absent or names no live session
produces exactly one send — the error envelope
`{"type": "error", "message": "Target ... not found"}` back to the
sender's own connection — no delivery to anyone else, and the message
loop goes on processing later messages on the same connection. -/
theorem c6_unknown_target_error (registry : Registry) (client_id : String)
    (sender_conn : Nat) (data : MsgData) (rest : List MsgData)
    (hmiss : ((dictGet data "target").all
        (fun t => !(dictHas registry t))) = true) :
    routeMessage registry client_id sender_conn data
      = [{ conn := sender_conn,
           msg := [("type", "error"),
                   ("message",
                    "Target " ++ pyShow (dictGet data "target")
                      ++ " not found")] }]
    ∧ serverLoop registry client_id sender_conn (data :: rest)
      = { conn := sender_conn,
          msg := [("type", "error"),
                  ("message",
                   "Target " ++ pyShow (dictGet data "target")
                     ++ " not found")] }
          :: serverLoop registry client_id sender_conn rest := by
  have hroute : routeMessage registry client_id sender_conn data
      = [{ conn := sender_conn,
           msg := [("type", "error"),
                   ("message",
                    "Target " ++ pyShow (dictGet data "target")
                      ++ " not found")] }] := by
    unfold routeMessage
    cases htarget : dictGet data "target" with
    | none => simp [htarget]
    | some t =>
      have hhas : dictHas registry t = false := by
        simpa [htarget] using hmiss
      simp [htarget, hhas, pyShow]
  exact ⟨hroute, by simp [serverLoop, hroute]⟩

/-- Witness for C6: `alice` sends to `carol` while only `bob` is
registered; the server answers `alice` with the error envelope and keeps
serving her next message. -/
theorem c6_unknown_target_error_witness :
    routeMessage [("bob", 7)] "alice" 3
        [("target", "carol"), ("type", "packet")]
      = [{ conn := 3,
           msg := [("type", "error"),
                   ("message", "Target carol not found")] }]
    ∧ serverLoop [("bob", 7)] "alice" 3
        [[("target", "carol"), ("type", "packet")]]
      = [{ conn := 3,
           msg := [("type", "error"),
                   ("message", "Target carol not found")] }] := by
  have h := c6_unknown_target_error [("bob", 7)] "alice" 3
    [("target", "carol"), ("type", "packet")] [] (by decide)
  exact ⟨h.1.trans (by decide), h.2.trans (by decide)⟩

/-- C7: a routed message whose target has a live session is forwarded to
that session's connection as the single send, with `sender` set to the
authenticated name of the sending session (overwriting any client-supplied
value) and every other field left exactly as received. -/
theorem c7_forward_overwrites_sender (registry : Registry)
    (client_id : String) (sender_conn : Nat) (data : MsgData)
    (t : String) (target_conn : Nat)
    (ht : dictGet data "target" = some t) (hne : t ≠ "")
    (hlive : dictGet registry t = some target_conn) :
    routeMessage registry client_id sender_conn data
      = [{ conn := target_conn, msg := dictSet data "sender" client_id }]
    ∧ dictGet (dictSet data "sender" client_id) "sender" = some client_id
    ∧ ∀ k, k ≠ "sender" →
        dictGet (dictSet data "sender" client_id) k = dictGet data k := by
  refine ⟨?_, dictGet_dictSet_self data "sender" client_id,
    fun k hk => dictGet_dictSet_ne data "sender" k client_id hk⟩
  simp [routeMessage, ht, hne, dictHas, hlive, pyShow]

/-- Witness for C7: the spec's end-to-end scenario — `alice` sends a
request envelope (with a forged `sender`) to `bob`; the server forwards
it to `bob`'s connection with `sender` rewritten to `alice` and the
other fields unchanged. -/
theorem c7_forward_overwrites_sender_witness :
    routeMessage [("alice", 3), ("bob", 7)] "alice" 3
        [("target", "bob"), ("type", "packet"), ("mode", "request"),
         ("payload", "deadbeef"), ("sender", "mallory")]
      = [{ conn := 7,
           msg := [("target", "bob"), ("type", "packet"),
                   ("mode", "request"), ("payload", "deadbeef"),
                   ("sender", "alice")] }] := by
  have h := c7_forward_overwrites_sender [("alice", 3), ("bob", 7)]
    "alice" 3
    [("target", "bob"), ("type", "packet"), ("mode", "request"),
     ("payload", "deadbeef"), ("sender", "mallory")]
    "bob" 7 rfl (by decide) (by decide)
  calc routeMessage [("alice", 3), ("bob", 7)] "alice" 3
        [("target", "bob"), ("type", "packet"), ("mode", "request"),
         ("payload", "deadbeef"), ("sender", "mallory")]
      = _ := h.1
    _ = _ := by simp [dictSet]

/-- C8: with a status callback registered, every iteration of the
reconnect loop that fails (at connect/auth, or later on the active
connection) fires the callback with `connected=false` immediately — the
event right before the backoff sleep — then sleeps exactly 5 seconds
before any event of the next attempt; the loop performs one attempt per
iteration for as long as `running` holds (no retry limit) and every sleep
in the whole trace is the same fixed 5 seconds (no exponential
backoff). -/
theorem c8_fixed_backoff_reconnect (ocs : List AttemptOutcome)
    (oc : AttemptOutcome) (rest : List AttemptOutcome) :
    attemptTrace true AttemptOutcome.connectFail
      = [CEvent.statusCb false, CEvent.attemptConnect,
         CEvent.statusCb false, CEvent.sleepSecs 5]
    ∧ attemptTrace true AttemptOutcome.activeThenError
      = [CEvent.statusCb false, CEvent.attemptConnect,
         CEvent.statusCb true, CEvent.statusCb false, CEvent.sleepSecs 5]
    ∧ connect_to_server true (oc :: rest)
      = (attemptTrace true oc).dropLast
          ++ (CEvent.sleepSecs 5 :: connect_to_server true rest)
    ∧ (attemptTrace true oc).dropLast.getLast?
      = some (CEvent.statusCb false)
    ∧ countAttempts (connect_to_server true ocs) = ocs.length
    ∧ sleepsOnlyFive (connect_to_server true ocs) = true := by
  refine ⟨rfl, rfl, ?_, ?_, ?_, ?_⟩
  · cases oc <;> simp [connect_to_server, attemptTrace]
  · cases oc <;> rfl
  · induction ocs with
    | nil => rfl
    | cons o os ih =>
      cases o <;>
        simp [connect_to_server, attemptTrace, countAttempts,
          List.countP_append] at ih ⊢ <;> omega
  · induction ocs with
    | nil => rfl
    | cons o os ih =>
      cases o <;>
        simp [connect_to_server, attemptTrace, sleepsOnlyFive,
          List.all_append] at ih ⊢ <;> exact ih

/-- C9: a second connection authenticating with an already-registered
name silently overwrites the registry entry (the handshake still succeeds
and no one is closed); when the replaced older connection later
disconnects, the `finally` cleanup — keyed by name only — deletes the
entry now owned by the live newer connection, so a message routed to that
name is answered with the target-not-found error even though the newer
session is still connected. -/
theorem c9_duplicate_name_stale_cleanup (clients : List (String × String))
    (token name client_id : String) (c1 c2 sender_conn : Nat)
    (htok : dictGet clients token = some name) (hname : name ≠ "") :
    serverAuth clients [] c1 (some token) (some name)
      = (AuthResult.authenticated name, [(name, c1)])
    ∧ serverAuth clients [(name, c1)] c2 (some token) (some name)
      = (AuthResult.authenticated name, [(name, c2)])
    ∧ serverCleanup [(name, c2)] (some name) = []
    ∧ routeMessage (serverCleanup [(name, c2)] (some name)) client_id
        sender_conn [("target", name)]
      = [{ conn := sender_conn,
           msg := [("type", "error"),
                   ("message", "Target " ++ name ++ " not found")] }] := by
  refine ⟨?_, ?_, ?_, ?_⟩
  · simp [serverAuth, htok, hname, dictSet]
  · simp [serverAuth, htok, hname, dictSet]
  · simp [serverCleanup, dictHas, dictGet, dictDel, hname]
  · simp [serverCleanup, serverCleanup, dictHas, dictGet, dictDel, hname,
      routeMessage, pyShow]

/-- Witness for C9: name `"a"` registered by connections 1 then 2; the
older connection's cleanup empties the registry and a message to `"a"`
from `"alice"` gets the error reply. -/
theorem c9_duplicate_name_stale_cleanup_witness :
    serverAuth [("T", "a")] [] 1 (some "T") (some "a")
      = (AuthResult.authenticated "a", [("a", 1)])
    ∧ serverAuth [("T", "a")] [("a", 1)] 2 (some "T") (some "a")
      = (AuthResult.authenticated "a", [("a", 2)])
    ∧ serverCleanup [("a", 2)] (some "a") = []
    ∧ routeMessage (serverCleanup [("a", 2)] (some "a")) "alice" 3
        [("target", "a")]
      = [{ conn := 3,
           msg := [("type", "error"),
                   ("message", "Target a not found")] }] :=
  c9_duplicate_name_stale_cleanup [("T", "a")] "T" "a" "alice" 1 2 3
    rfl (by decide)

end MyConnect
